import Mathlib

/-!
# Verification of the dkod-engine Python SDK (`dekode` package)

Shallow embedding of the SDK's data model and operations:

* `dekode/models.py` — enums (`ChangeType`, `ContextDepth`, `SubmitStatus`),
  the enum↔proto mapping dicts, and the Pydantic models with their
  `from_proto` / `to_proto` conversions.
* `dekode/session.py` — `DekodeSession.context`, `.submit`, `.file_read`,
  `.file_write`, `.session_status`.  Each method builds one request proto,
  performs exactly one RPC through the stub, and converts the response; the
  stub is embedded as an explicit function argument
  (request → response), so "one RPC with request R" is "the stub applied
  once, to R".
* `dekode/tools.py` — the LLM tool router (`dekode_tools`, `dispatch_tool`).
  This module is imported by `dekode/__init__.py` and exercised by
  `tests/test_tools.py` but its source is not present; the router
  definitions below are modelled from the spec (sections 3, 4.1, 4.2, 7)
  and the observable contract in the tests.

Python `dict` values returned to callers are embedded as `JVal.obj`
association lists in insertion order; protobuf optional fields are embedded
as `Option`, with `HasField` ↔ `Option.isSome`.
-/

namespace Dekode

/-- A JSON-compatible Python value, as found in an LLM tool-call argument
bag: `None`, `bool`, `int`, `str`, list, or object (dict in insertion
order). -/
inductive JVal where
  | null : JVal
  | bool (b : Bool) : JVal
  | num (n : Int) : JVal
  | str (s : String) : JVal
  | arr (xs : List JVal) : JVal
  | obj (kvs : List (String × JVal)) : JVal

/-- An `ArgumentBag`: an untyped mapping from string keys to JSON values. -/
abbrev Bag := List (String × JVal)

/-- `bag.get(key)`: first value stored under `key`, if any. -/
def bagGet (args : Bag) (key : String) : Option JVal :=
  (args.find? (fun p => p.1 = key)).map (fun p => p.2)

/-- Crude rendering of a received value for error messages. -/
def JVal.render : JVal → String
  | .null => "None"
  | .bool true => "True"
  | .bool false => "False"
  | .num n => toString n
  | .str s => s
  | .arr _ => "<array>"
  | .obj _ => "<object>"

/-! ## Enums (`dekode/models.py`)

Python `StrEnum` members are embedded as inductive constructors plus a
`val` function giving the member's string value. -/

/-- `ChangeType`: kinds of code changes an agent can submit. -/
inductive ChangeType where
  | MODIFY_FUNCTION | ADD_FUNCTION | DELETE_FUNCTION
  | MODIFY_TYPE | ADD_TYPE | ADD_DEPENDENCY
deriving DecidableEq

/-- String value of each `ChangeType` member. -/
def ChangeType.val : ChangeType → String
  | .MODIFY_FUNCTION => "MODIFY_FUNCTION"
  | .ADD_FUNCTION => "ADD_FUNCTION"
  | .DELETE_FUNCTION => "DELETE_FUNCTION"
  | .MODIFY_TYPE => "MODIFY_TYPE"
  | .ADD_TYPE => "ADD_TYPE"
  | .ADD_DEPENDENCY => "ADD_DEPENDENCY"

/-- `ChangeType(s)`: look a string up among the members' values. -/
def ChangeType.fromString? (s : String) : Option ChangeType :=
  if s = "MODIFY_FUNCTION" then some .MODIFY_FUNCTION
  else if s = "ADD_FUNCTION" then some .ADD_FUNCTION
  else if s = "DELETE_FUNCTION" then some .DELETE_FUNCTION
  else if s = "MODIFY_TYPE" then some .MODIFY_TYPE
  else if s = "ADD_TYPE" then some .ADD_TYPE
  else if s = "ADD_DEPENDENCY" then some .ADD_DEPENDENCY
  else none

/-- `ContextDepth`: how much detail the server should return. -/
inductive ContextDepth where
  | SIGNATURES | FULL | CALL_GRAPH
deriving DecidableEq

/-- String value of each `ContextDepth` member. -/
def ContextDepth.val : ContextDepth → String
  | .SIGNATURES => "SIGNATURES"
  | .FULL => "FULL"
  | .CALL_GRAPH => "CALL_GRAPH"

/-- `ContextDepth(s)`: look a string up among the members' values. -/
def ContextDepth.fromString? (s : String) : Option ContextDepth :=
  if s = "SIGNATURES" then some .SIGNATURES
  else if s = "FULL" then some .FULL
  else if s = "CALL_GRAPH" then some .CALL_GRAPH
  else none

/-- `SubmitStatus`: outcome of a submit request. -/
inductive SubmitStatus where
  | ACCEPTED | REJECTED | CONFLICT
deriving DecidableEq

/-- String value of each `SubmitStatus` member. -/
def SubmitStatus.val : SubmitStatus → String
  | .ACCEPTED => "ACCEPTED"
  | .REJECTED => "REJECTED"
  | .CONFLICT => "CONFLICT"

/-! ## Protobuf enum constants (`dekode/_generated/dekode/v1/agent_pb2`)

Modelled from the spec: the generated protobuf module is not part of the
given sources; per protobuf semantics the constants of one enum are
distinct integers, embedded here as distinct naturals. -/

namespace agent_pb2

def MODIFY_FUNCTION : Nat := 0
def ADD_FUNCTION : Nat := 1
def DELETE_FUNCTION : Nat := 2
def MODIFY_TYPE : Nat := 3
def ADD_TYPE : Nat := 4
def ADD_DEPENDENCY : Nat := 5

def SIGNATURES : Nat := 0
def FULL : Nat := 1
def CALL_GRAPH : Nat := 2

def ACCEPTED : Nat := 0
def REJECTED : Nat := 1
def CONFLICT : Nat := 2

end agent_pb2

/-! ## Enum ↔ proto mapping dicts (`dekode/models.py` lines 53-76)

A Python dict whose keys exhaust a finite enum is embedded both as the
total function it denotes and as its item list; `_CHANGE_TYPE_FROM_PROTO`
is built, as in the source, by inverting the item list of
`_CHANGE_TYPE_TO_PROTO`. -/

/-- `_CHANGE_TYPE_TO_PROTO[t]` as a total function. -/
def changeTypeToProto : ChangeType → Nat
  | .MODIFY_FUNCTION => agent_pb2.MODIFY_FUNCTION
  | .ADD_FUNCTION => agent_pb2.ADD_FUNCTION
  | .DELETE_FUNCTION => agent_pb2.DELETE_FUNCTION
  | .MODIFY_TYPE => agent_pb2.MODIFY_TYPE
  | .ADD_TYPE => agent_pb2.ADD_TYPE
  | .ADD_DEPENDENCY => agent_pb2.ADD_DEPENDENCY

/-- The item list of the `_CHANGE_TYPE_TO_PROTO` dict, in declaration
order. -/
def CHANGE_TYPE_TO_PROTO_items : List (ChangeType × Nat) :=
  [(.MODIFY_FUNCTION, agent_pb2.MODIFY_FUNCTION),
   (.ADD_FUNCTION, agent_pb2.ADD_FUNCTION),
   (.DELETE_FUNCTION, agent_pb2.DELETE_FUNCTION),
   (.MODIFY_TYPE, agent_pb2.MODIFY_TYPE),
   (.ADD_TYPE, agent_pb2.ADD_TYPE),
   (.ADD_DEPENDENCY, agent_pb2.ADD_DEPENDENCY)]

/-- `_CHANGE_TYPE_FROM_PROTO = {v: k for k, v in _CHANGE_TYPE_TO_PROTO.items()}`. -/
def CHANGE_TYPE_FROM_PROTO_items : List (Nat × ChangeType) :=
  CHANGE_TYPE_TO_PROTO_items.map (fun p => (p.2, p.1))

/-- Dict lookup in `_CHANGE_TYPE_FROM_PROTO` (Python raises `KeyError` on a
missing key, embedded as `none`). -/
def changeTypeFromProto? (n : Nat) : Option ChangeType :=
  (CHANGE_TYPE_FROM_PROTO_items.find? (fun p => p.1 = n)).map (fun p => p.2)

/-- `_CONTEXT_DEPTH_TO_PROTO[d]` as a total function. -/
def contextDepthToProto : ContextDepth → Nat
  | .SIGNATURES => agent_pb2.SIGNATURES
  | .FULL => agent_pb2.FULL
  | .CALL_GRAPH => agent_pb2.CALL_GRAPH

/-- The item list of the `_SUBMIT_STATUS_FROM_PROTO` dict, in declaration
order. -/
def SUBMIT_STATUS_FROM_PROTO_items : List (Nat × SubmitStatus) :=
  [(agent_pb2.ACCEPTED, .ACCEPTED),
   (agent_pb2.REJECTED, .REJECTED),
   (agent_pb2.CONFLICT, .CONFLICT)]

/-- Dict lookup in `_SUBMIT_STATUS_FROM_PROTO`. -/
def submitStatusFromProto? (n : Nat) : Option SubmitStatus :=
  (SUBMIT_STATUS_FROM_PROTO_items.find? (fun p => p.1 = n)).map (fun p => p.2)

/-! ## Protobuf messages (`dekode/_generated/dekode/v1/...`)

Modelled from the spec: the generated message classes are not part of the
given sources; fields follow the shapes used by `models.py`, `session.py`
and the test fixtures.  An `optional` proto field is an `Option`
(`HasField` ↔ `isSome`); `bytes` is a list of byte values. -/

/-- `types_pb2.SymbolRef`. -/
structure SymbolRef where
  id : String
  name : String
  qualified_name : String
  kind : String
  visibility : String
  file_path : String
  start_byte : Nat
  end_byte : Nat
  signature : String
  doc_comment : Option String := none
  parent_id : Option String := none

/-- `agent_pb2.SymbolResult`: a `SymbolRef` plus source and edge lists. -/
structure SymbolResult where
  symbol : SymbolRef
  source : Option String := none
  caller_ids : List String := []
  callee_ids : List String := []

/-- `types_pb2.CallEdgeRef`. -/
structure CallEdgeRef where
  caller_id : String
  callee_id : String
  kind : String

/-- `types_pb2.DependencyRef`. -/
structure DependencyRef where
  package : String
  version_req : String
  used_by_symbol_ids : List String := []

/-- `agent_pb2.ContextRequest`. -/
structure ContextRequest where
  session_id : String
  query : String
  depth : Nat
  include_tests : Bool
  include_dependencies : Bool
  max_tokens : Int
deriving DecidableEq

/-- `agent_pb2.ContextResponse`. -/
structure ContextResponse where
  symbols : List SymbolResult := []
  call_graph : List CallEdgeRef := []
  dependencies : List DependencyRef := []
  estimated_tokens : Nat := 0

/-- `agent_pb2.Change` (the wire form of one change). -/
structure ProtoChange where
  type : Nat
  symbol_name : String
  file_path : String
  new_source : String
  rationale : String
  old_symbol_id : Option String := none
deriving DecidableEq

/-- `agent_pb2.SubmitError`. -/
structure ProtoSubmitError where
  message : String
  symbol_id : Option String := none
  file_path : Option String := none

/-- `agent_pb2.SubmitRequest`. -/
structure SubmitRequest where
  session_id : String
  intent : String
  changes : List ProtoChange

/-- `agent_pb2.SubmitResponse`. -/
structure SubmitResponse where
  status : Nat
  changeset_id : String
  new_version : Option String := none
  errors : List ProtoSubmitError := []

/-- `agent_pb2.FileReadRequest`. -/
structure FileReadRequest where
  session_id : String
  path : String
deriving DecidableEq

/-- `agent_pb2.FileReadResponse` (`content` is `bytes`). -/
structure FileReadResponse where
  content : List Nat
  hash : String
  modified_in_session : Bool

/-- `agent_pb2.FileWriteRequest` (`content` is `bytes`). -/
structure FileWriteRequest where
  session_id : String
  path : String
  content : List Nat

/-- One detected change inside `agent_pb2.FileWriteResponse`. -/
structure DetectedChange where
  symbol_name : String
  change_type : String

/-- `agent_pb2.FileWriteResponse`. -/
structure FileWriteResponse where
  new_hash : String
  detected_changes : List DetectedChange := []

/-- `agent_pb2.SessionStatusRequest`. -/
structure SessionStatusRequest where
  session_id : String
deriving DecidableEq

/-- `agent_pb2.SessionStatusResponse`. -/
structure SessionStatusResponse where
  session_id : String
  base_commit : String
  files_modified : List String
  symbols_modified : List String
  overlay_size_bytes : Nat
  active_other_sessions : Nat

/-! ## Models (`dekode/models.py`) -/

/-- `CodebaseSummary` model. -/
structure CodebaseSummary where
  languages : List String
  total_symbols : Nat
  total_files : Nat

/-- `Symbol` model. -/
structure Symbol where
  id : String
  name : String
  qualified_name : String
  kind : String
  visibility : String
  file_path : String
  start_byte : Nat
  end_byte : Nat
  signature : String
  doc_comment : Option String := none
  parent_id : Option String := none
  source : Option String := none
  caller_ids : List String := []
  callee_ids : List String := []

/-- `Symbol.from_symbol_result` (`models.py` lines 117-136). -/
def Symbol.from_symbol_result (pb : SymbolResult) : Symbol :=
  { id := pb.symbol.id
    name := pb.symbol.name
    qualified_name := pb.symbol.qualified_name
    kind := pb.symbol.kind
    visibility := pb.symbol.visibility
    file_path := pb.symbol.file_path
    start_byte := pb.symbol.start_byte
    end_byte := pb.symbol.end_byte
    signature := pb.symbol.signature
    doc_comment := pb.symbol.doc_comment
    parent_id := pb.symbol.parent_id
    source := pb.source
    caller_ids := pb.caller_ids
    callee_ids := pb.callee_ids }

/-- `CallEdge` model. -/
structure CallEdge where
  caller_id : String
  callee_id : String
  kind : String

/-- `CallEdge.from_proto`. -/
def CallEdge.from_proto (pb : CallEdgeRef) : CallEdge :=
  { caller_id := pb.caller_id, callee_id := pb.callee_id, kind := pb.kind }

/-- `Dependency` model. -/
structure Dependency where
  package : String
  version_req : String
  used_by_symbol_ids : List String := []

/-- `Dependency.from_proto`. -/
def Dependency.from_proto (pb : DependencyRef) : Dependency :=
  { package := pb.package
    version_req := pb.version_req
    used_by_symbol_ids := pb.used_by_symbol_ids }

/-- `SubmitError` model. -/
structure SubmitError where
  message : String
  symbol_id : Option String := none
  file_path : Option String := none

/-- `SubmitError.from_proto`. -/
def SubmitError.from_proto (pb : ProtoSubmitError) : SubmitError :=
  { message := pb.message, symbol_id := pb.symbol_id, file_path := pb.file_path }

/-- `ContextResult` model. -/
structure ContextResult where
  symbols : List Symbol := []
  call_graph : List CallEdge := []
  dependencies : List Dependency := []
  estimated_tokens : Nat := 0

/-- `ContextResult.from_proto` (`models.py` lines 195-202). -/
def ContextResult.from_proto (pb : ContextResponse) : ContextResult :=
  { symbols := pb.symbols.map Symbol.from_symbol_result
    call_graph := pb.call_graph.map CallEdge.from_proto
    dependencies := pb.dependencies.map Dependency.from_proto
    estimated_tokens := pb.estimated_tokens }

/-- `Change` model: a single code change to be submitted. -/
structure Change where
  type : ChangeType
  symbol_name : String
  file_path : String
  new_source : String
  rationale : String
  old_symbol_id : Option String := none
deriving DecidableEq

/-- `Change.to_proto` (`models.py` lines 215-226): build the kwargs with
the five mandatory fields, add `old_symbol_id` only when it is not `None`,
then construct the proto message (absent optional field = `none`). -/
def Change.to_proto (c : Change) : ProtoChange :=
  match c.old_symbol_id with
  | some o =>
      { type := changeTypeToProto c.type
        symbol_name := c.symbol_name
        file_path := c.file_path
        new_source := c.new_source
        rationale := c.rationale
        old_symbol_id := some o }
  | none =>
      { type := changeTypeToProto c.type
        symbol_name := c.symbol_name
        file_path := c.file_path
        new_source := c.new_source
        rationale := c.rationale
        old_symbol_id := none }

/-- `SubmitResult` model. -/
structure SubmitResult where
  status : SubmitStatus
  changeset_id : String
  new_version : Option String := none
  errors : List SubmitError := []

/-- `SubmitResult.from_proto` (`models.py` lines 237-244); the
`_SUBMIT_STATUS_FROM_PROTO[pb.status]` dict lookup raises `KeyError` on an
unknown proto value, embedded as `none`. -/
def SubmitResult.from_proto (pb : SubmitResponse) : Option SubmitResult :=
  match submitStatusFromProto? pb.status with
  | none => none
  | some st =>
      some { status := st
             changeset_id := pb.changeset_id
             new_version := pb.new_version
             errors := pb.errors.map SubmitError.from_proto }

/-! ## `bytes.decode("utf-8", errors="replace")`

CPython's UTF-8 decoder with the `replace` error handler is total: it
substitutes U+FFFD for each maximal subpart of an ill-formed sequence and
never raises.  Embedded as a fuel-driven recursion (every step consumes at
least one byte, so `fuel = length` suffices). -/

/-- U+FFFD REPLACEMENT CHARACTER. -/
def replacementChar : Char := Char.ofNat 0xFFFD

/-- One pass of the UTF-8 decoder with `errors="replace"`. -/
def utf8ReplaceGo : Nat → List Nat → List Char
  | 0, _ => []
  | _, [] => []
  | fuel + 1, b0 :: rest =>
    if b0 < 0x80 then
      Char.ofNat b0 :: utf8ReplaceGo fuel rest
    else if 0xC2 ≤ b0 ∧ b0 ≤ 0xDF then
      match rest with
      | [] => [replacementChar]
      | b1 :: rest2 =>
        if 0x80 ≤ b1 ∧ b1 ≤ 0xBF then
          Char.ofNat ((b0 - 0xC0) * 64 + (b1 - 0x80)) :: utf8ReplaceGo fuel rest2
        else
          replacementChar :: utf8ReplaceGo fuel rest
    else if 0xE0 ≤ b0 ∧ b0 ≤ 0xEF then
      let lo1 := if b0 = 0xE0 then 0xA0 else 0x80
      let hi1 := if b0 = 0xED then 0x9F else 0xBF
      match rest with
      | [] => [replacementChar]
      | b1 :: rest2 =>
        if lo1 ≤ b1 ∧ b1 ≤ hi1 then
          match rest2 with
          | [] => [replacementChar]
          | b2 :: rest3 =>
            if 0x80 ≤ b2 ∧ b2 ≤ 0xBF then
              Char.ofNat ((b0 - 0xE0) * 4096 + (b1 - 0x80) * 64 + (b2 - 0x80)) ::
                utf8ReplaceGo fuel rest3
            else
              replacementChar :: utf8ReplaceGo fuel rest2
        else
          replacementChar :: utf8ReplaceGo fuel rest
    else if 0xF0 ≤ b0 ∧ b0 ≤ 0xF4 then
      let lo1 := if b0 = 0xF0 then 0x90 else 0x80
      let hi1 := if b0 = 0xF4 then 0x8F else 0xBF
      match rest with
      | [] => [replacementChar]
      | b1 :: rest2 =>
        if lo1 ≤ b1 ∧ b1 ≤ hi1 then
          match rest2 with
          | [] => [replacementChar]
          | b2 :: rest3 =>
            if 0x80 ≤ b2 ∧ b2 ≤ 0xBF then
              match rest3 with
              | [] => [replacementChar]
              | b3 :: rest4 =>
                if 0x80 ≤ b3 ∧ b3 ≤ 0xBF then
                  Char.ofNat ((b0 - 0xF0) * 262144 + (b1 - 0x80) * 4096 +
                      (b2 - 0x80) * 64 + (b3 - 0x80)) :: utf8ReplaceGo fuel rest4
                else
                  replacementChar :: utf8ReplaceGo fuel rest3
            else
              replacementChar :: utf8ReplaceGo fuel rest2
        else
          replacementChar :: utf8ReplaceGo fuel rest
    else
      replacementChar :: utf8ReplaceGo fuel rest

/-- `content.decode("utf-8", errors="replace")`: total on every byte
sequence. -/
def decode_utf8_replace (bs : List Nat) : String :=
  String.mk (utf8ReplaceGo bs.length bs)

/-- `content.encode("utf-8")` (used by `file_write`). -/
def encode_utf8 (s : String) : List Nat :=
  s.toUTF8.toList.map UInt8.toNat

/-! ## `DekodeSession` (`dekode/session.py`)

The gRPC stub is embedded as an explicit request → response function for
each RPC, so that "the method performs exactly one `Context` call with
request `R` and converts its response" is literally `from_proto (stub R)`. -/

/-- The state a `DekodeSession` holds (channel and stub are embedded as
the per-call stub functions). -/
structure DekodeSessionState where
  session_id : String
  codebase_version : String
  summary : CodebaseSummary

namespace DekodeSession

/-- `DekodeSession.context` (`session.py` lines 53-90), with the Python
default arguments `depth=ContextDepth.FULL`, `include_tests=False`,
`include_dependencies=False`, `max_tokens=8000`. -/
def context (s : DekodeSessionState) (stub : ContextRequest → ContextResponse)
    (query : String) (depth : ContextDepth := .FULL)
    (include_tests : Bool := false) (include_dependencies : Bool := false)
    (max_tokens : Int := 8000) : ContextResult :=
  let request : ContextRequest :=
    { session_id := s.session_id
      query := query
      depth := contextDepthToProto depth
      include_tests := include_tests
      include_dependencies := include_dependencies
      max_tokens := max_tokens }
  ContextResult.from_proto (stub request)

/-- `DekodeSession.submit` (`session.py` lines 94-113). -/
def submit (s : DekodeSessionState) (stub : SubmitRequest → SubmitResponse)
    (changes : List Change) (intent : String) : Option SubmitResult :=
  let request : SubmitRequest :=
    { session_id := s.session_id
      intent := intent
      changes := changes.map Change.to_proto }
  SubmitResult.from_proto (stub request)

/-- `DekodeSession.file_read` (`session.py` lines 117-128): the returned
Python dict, in insertion order. -/
def file_read (s : DekodeSessionState) (stub : FileReadRequest → FileReadResponse)
    (path : String) : JVal :=
  let response := stub { session_id := s.session_id, path := path }
  JVal.obj
    [("content", .str (decode_utf8_replace response.content)),
     ("hash", .str response.hash),
     ("modified_in_session", .bool response.modified_in_session)]

/-- `DekodeSession.file_write` (`session.py` lines 132-146). -/
def file_write (s : DekodeSessionState) (stub : FileWriteRequest → FileWriteResponse)
    (path content : String) : JVal :=
  let response := stub
    { session_id := s.session_id, path := path, content := encode_utf8 content }
  JVal.obj
    [("new_hash", .str response.new_hash),
     ("detected_changes", .arr (response.detected_changes.map (fun sc =>
        JVal.obj [("symbol_name", .str sc.symbol_name),
                  ("change_type", .str sc.change_type)])))]

/-- `DekodeSession.session_status` (`session.py` lines 150-163): the
returned Python dict, in insertion order. -/
def session_status (s : DekodeSessionState)
    (stub : SessionStatusRequest → SessionStatusResponse) : JVal :=
  let response := stub { session_id := s.session_id }
  JVal.obj
    [("session_id", .str response.session_id),
     ("base_commit", .str response.base_commit),
     ("files_modified", .arr (response.files_modified.map JVal.str)),
     ("symbols_modified", .arr (response.symbols_modified.map JVal.str)),
     ("overlay_size_bytes", .num (response.overlay_size_bytes : Int)),
     ("active_other_sessions", .num (response.active_other_sessions : Int))]

end DekodeSession

/-! ## Tool router (`dekode/tools.py`)

Modelled from the spec: `dekode/tools.py` is imported by
`dekode/__init__.py` and exercised by `tests/test_tools.py`, but its source
is not among the given files.  The definitions below follow spec sections
3 (data model), 4.1 (descriptor registry), 4.2 (dispatcher) and 7 (error
taxonomy), together with the concrete strings observable in the tests
(descriptor key names, the `code_execution_20260120` caller tag, the
`Unknown tool: <name>` message).

`dispatch_tool` is factored into its pure part `dispatch_route`, which
performs steps 1-5 of spec 4.2: alias resolution, registry lookup,
required-argument validation and type/enum coercion, and yields either the
typed error (spec section 7) or the one `SessionCall` — the single session
operation invocation with its validated arguments — that the impure wrapper
then executes and serialises (step 6). -/

/-- A JSON-Schema-like input schema: `type: "object"`, a `properties`
mapping, and the `required` property names. -/
structure ToolSchema where
  type : String
  properties : List (String × String)
  required : List String

/-- One tool descriptor as consumed by an LLM tool-calling API. -/
structure ToolDescriptor where
  name : String
  description : String
  input_schema : ToolSchema
  allowed_callers : List String

/-- Modelled from the spec: the descriptor registry of `dekode_tools()`
(spec 4.1's table, in table order; the caller tag is the one asserted by
`tests/test_tools.py`). -/
def dekode_tools : List ToolDescriptor :=
  [{ name := "dkod_connect"
     description := "Connect to a codebase and open an agent session."
     input_schema :=
       { type := "object"
         properties := [("codebase", "string"), ("intent", "string")]
         required := ["codebase", "intent"] }
     allowed_callers := ["code_execution_20260120"] },
   { name := "dkod_context"
     description := "Search the codebase for symbols relevant to a query."
     input_schema :=
       { type := "object"
         properties :=
           [("query", "string"), ("depth", "string"),
            ("include_tests", "boolean"), ("include_dependencies", "boolean"),
            ("max_tokens", "integer")]
         required := ["query"] }
     allowed_callers := ["code_execution_20260120"] },
   { name := "dkod_read_file"
     description := "Read a file through the session workspace overlay."
     input_schema :=
       { type := "object"
         properties := [("path", "string")]
         required := ["path"] }
     allowed_callers := ["code_execution_20260120"] },
   { name := "dkod_write_file"
     description := "Write a file to the session workspace overlay."
     input_schema :=
       { type := "object"
         properties := [("path", "string"), ("content", "string")]
         required := ["path", "content"] }
     allowed_callers := ["code_execution_20260120"] },
   { name := "dkod_submit"
     description := "Submit code changes for verification and merge."
     input_schema :=
       { type := "object"
         properties := [("intent", "string"), ("changes", "array")]
         required := ["intent", "changes"] }
     allowed_callers := ["code_execution_20260120"] },
   { name := "dkod_session_status"
     description := "Get the current state of this session workspace."
     input_schema :=
       { type := "object"
         properties := []
         required := [] }
     allowed_callers := ["code_execution_20260120"] }]

/-- Modelled from the spec: the legacy-alias table (spec section 3; the
design notes record that only these two aliases are observable). -/
def TOOL_ALIASES : List (String × String) :=
  [("search_codebase", "dkod_context"),
   ("submit_changes", "dkod_submit")]

/-- Spec 4.2 step 1: resolve through the alias table first, falling back
to treating the name as canonical. -/
def resolveAlias (name : String) : String :=
  match (TOOL_ALIASES.find? (fun p => p.1 = name)).map (fun p => p.2) with
  | some canonical => canonical
  | none => name

/-- The six canonical tool names, in registry order. -/
def knownToolNames : List String :=
  ["dkod_connect", "dkod_context", "dkod_read_file", "dkod_write_file",
   "dkod_submit", "dkod_session_status"]

/-- Spec 4.1's required-argument table. -/
def requiredOf : String → List String
  | "dkod_connect" => ["codebase", "intent"]
  | "dkod_context" => ["query"]
  | "dkod_read_file" => ["path"]
  | "dkod_write_file" => ["path", "content"]
  | "dkod_submit" => ["intent", "changes"]
  | _ => []

/-- The dispatcher's own error taxonomy (spec section 7). -/
inductive DispatchError where
  | unknownTool (original : String) : DispatchError
  | missingArgument (tool field : String) : DispatchError
  | invalidArgument (field received : String) (allowed : List String) : DispatchError
deriving DecidableEq

/-- The user-visible message of each dispatcher error (the unknown-tool
form is the one matched by `tests/test_tools.py`). -/
def DispatchError.message : DispatchError → String
  | .unknownTool original => "Unknown tool: " ++ original
  | .missingArgument tool field => "Missing argument for " ++ tool ++ ": " ++ field
  | .invalidArgument field received allowed =>
      "Invalid value for " ++ field ++ ": " ++ received ++
        " (allowed: " ++ String.intercalate ", " allowed ++ ")"

/-- The one session-operation invocation a successful dispatch performs
(spec 4.2 step 5 and the collaborator contract of spec section 6), with its
validated, coerced arguments. -/
inductive SessionCall where
  | connect (codebase intent : String) : SessionCall
  | context (query : String) (depth : ContextDepth)
      (include_tests include_dependencies : Bool) (max_tokens : Int) : SessionCall
  | fileRead (path : String) : SessionCall
  | fileWrite (path content : String) : SessionCall
  | submit (changes : List Change) (intent : String) : SessionCall
  | sessionStatus : SessionCall
deriving DecidableEq

/-- Spec 4.2 step 3: first required argument of `tool` missing from the
bag, as a `missingArgument` error. -/
def checkRequired (tool : String) (args : Bag) : Option DispatchError :=
  ((requiredOf tool).find? (fun f => (bagGet args f).isNone)).map
    (fun f => DispatchError.missingArgument tool f)

/-- Decode a required string-typed field (presence already validated). -/
def getStr (tool field : String) (args : Bag) : Except DispatchError String :=
  match bagGet args field with
  | some (.str s) => .ok s
  | some v => .error (.invalidArgument field v.render ["string"])
  | none => .error (.missingArgument tool field)

/-- Decode the optional `depth` field (default `FULL`); an unrecognised
member fails naming the field, the received value and the allowed set. -/
def getDepth (args : Bag) : Except DispatchError ContextDepth :=
  match bagGet args "depth" with
  | none => .ok .FULL
  | some (.str s) =>
      match ContextDepth.fromString? s with
      | some d => .ok d
      | none => .error (.invalidArgument "depth" s ["SIGNATURES", "FULL", "CALL_GRAPH"])
  | some v => .error (.invalidArgument "depth" v.render ["SIGNATURES", "FULL", "CALL_GRAPH"])

/-- Decode an optional boolean field with a default. -/
def getBoolD (field : String) (args : Bag) (dflt : Bool) : Except DispatchError Bool :=
  match bagGet args field with
  | none => .ok dflt
  | some (.bool b) => .ok b
  | some v => .error (.invalidArgument field v.render ["boolean"])

/-- Digit value of a character, if it is a decimal digit. -/
def charDigit? (c : Char) : Option Nat :=
  if '0' ≤ c ∧ c ≤ '9' then some (c.toNat - '0'.toNat) else none

/-- Read a non-empty all-digit character list as a natural number. -/
def natFromDigits : List Char → Nat → Option Nat
  | [], acc => some acc
  | c :: cs, acc =>
      match charDigit? c with
      | some d => natFromDigits cs (10 * acc + d)
      | none => none

/-- Modelled from the spec: `int(s)` on a numeric-looking string — an
optional sign followed by at least one decimal digit. -/
def pyInt? (s : String) : Option Int :=
  match s.data with
  | [] => none
  | '-' :: [] => none
  | '-' :: c :: cs => (natFromDigits (c :: cs) 0).map (fun n => -(n : Int))
  | '+' :: [] => none
  | '+' :: c :: cs => (natFromDigits (c :: cs) 0).map (fun n => (n : Int))
  | cs => (natFromDigits cs 0).map (fun n => (n : Int))

/-- Decode the optional `max_tokens` field (default 8000); spec 4.2
step 4's documented coercion accepts a numeric-looking string. -/
def getMaxTokens (args : Bag) : Except DispatchError Int :=
  match bagGet args "max_tokens" with
  | none => .ok 8000
  | some (.num n) => .ok n
  | some (.str s) =>
      match pyInt? s with
      | some n => .ok n
      | none => .error (.invalidArgument "max_tokens" s ["integer"])
  | some v => .error (.invalidArgument "max_tokens" v.render ["integer"])

/-- Decode one element of the `changes` array into a `Change`, enum-checking
its `type` field against the `ChangeType` members (field by field, failing
on the first bad one). -/
def decodeChange (v : JVal) : Except DispatchError Change :=
  match v with
  | .obj kvs =>
    match getStr "dkod_submit" "type" kvs with
    | .error e => .error e
    | .ok ty =>
      match ChangeType.fromString? ty with
      | none =>
          .error (.invalidArgument "type" ty
            ["MODIFY_FUNCTION", "ADD_FUNCTION", "DELETE_FUNCTION",
             "MODIFY_TYPE", "ADD_TYPE", "ADD_DEPENDENCY"])
      | some t =>
        match getStr "dkod_submit" "symbol_name" kvs with
        | .error e => .error e
        | .ok symbol_name =>
          match getStr "dkod_submit" "file_path" kvs with
          | .error e => .error e
          | .ok file_path =>
            match getStr "dkod_submit" "new_source" kvs with
            | .error e => .error e
            | .ok new_source =>
              match getStr "dkod_submit" "rationale" kvs with
              | .error e => .error e
              | .ok rationale =>
                match bagGet kvs "old_symbol_id" with
                | none =>
                    .ok { type := t, symbol_name, file_path, new_source,
                          rationale, old_symbol_id := none }
                | some (.str s) =>
                    .ok { type := t, symbol_name, file_path, new_source,
                          rationale, old_symbol_id := some s }
                | some w =>
                    .error (.invalidArgument "old_symbol_id" w.render ["string"])
  | _ => .error (.invalidArgument "changes" v.render ["object"])

/-- Decode a list of changes left to right, stopping at the first error. -/
def decodeChangeList : List JVal → Except DispatchError (List Change)
  | [] => .ok []
  | x :: xs =>
    match decodeChange x with
    | .error e => .error e
    | .ok c =>
      match decodeChangeList xs with
      | .error e => .error e
      | .ok cs => .ok (c :: cs)

/-- Decode the `changes` array. -/
def decodeChanges (v : JVal) : Except DispatchError (List Change) :=
  match v with
  | .arr xs => decodeChangeList xs
  | _ => .error (.invalidArgument "changes" v.render ["array"])

/-- Spec 4.2 steps 4-5 for one resolved, known tool whose required
arguments are present: coerce the bag (in declared argument order, failing
on the first bad field) and name the session operation. -/
def buildCall (tool : String) (args : Bag) : Except DispatchError SessionCall :=
  if tool = "dkod_connect" then
    match getStr tool "codebase" args with
    | .error e => .error e
    | .ok codebase =>
      match getStr tool "intent" args with
      | .error e => .error e
      | .ok intent => .ok (.connect codebase intent)
  else if tool = "dkod_context" then
    match getStr tool "query" args with
    | .error e => .error e
    | .ok query =>
      match getDepth args with
      | .error e => .error e
      | .ok depth =>
        match getBoolD "include_tests" args false with
        | .error e => .error e
        | .ok include_tests =>
          match getBoolD "include_dependencies" args false with
          | .error e => .error e
          | .ok include_dependencies =>
            match getMaxTokens args with
            | .error e => .error e
            | .ok max_tokens =>
                .ok (.context query depth include_tests include_dependencies max_tokens)
  else if tool = "dkod_read_file" then
    match getStr tool "path" args with
    | .error e => .error e
    | .ok path => .ok (.fileRead path)
  else if tool = "dkod_write_file" then
    match getStr tool "path" args with
    | .error e => .error e
    | .ok path =>
      match getStr tool "content" args with
      | .error e => .error e
      | .ok content => .ok (.fileWrite path content)
  else if tool = "dkod_submit" then
    match getStr tool "intent" args with
    | .error e => .error e
    | .ok intent =>
      match decodeChanges ((bagGet args "changes").getD .null) with
      | .error e => .error e
      | .ok changes => .ok (.submit changes intent)
  else
    .ok .sessionStatus

/-- Spec 4.2 steps 1-5 (the pure part of `dispatch_tool`): resolve the
alias, reject an unknown resolved name carrying the original name, check
required arguments, then coerce and name the one session operation. -/
def dispatch_route (name : String) (args : Bag) : Except DispatchError SessionCall :=
  let resolved := resolveAlias name
  if resolved ∈ knownToolNames then
    match checkRequired resolved args with
    | some e => .error e
    | none => buildCall resolved args
  else
    .error (.unknownTool name)

/-! ## Claims -/

/-- C1: `dekode_tools` is a pure value, so every call in a process returns
the same six descriptors in the same order; its name list is exactly the
six canonical names (hence the name set is exactly that set), and each
descriptor's schema `required` list matches the table of spec 4.1 — which
is also exactly what the dispatcher itself requires (`requiredOf`). -/
theorem C1_descriptor_registry :
    dekode_tools.length = 6 ∧
    dekode_tools.map ToolDescriptor.name = knownToolNames ∧
    knownToolNames =
      ["dkod_connect", "dkod_context", "dkod_read_file", "dkod_write_file",
       "dkod_submit", "dkod_session_status"] ∧
    dekode_tools.map (fun d => (d.name, d.input_schema.required)) =
      [("dkod_connect", ["codebase", "intent"]),
       ("dkod_context", ["query"]),
       ("dkod_read_file", ["path"]),
       ("dkod_write_file", ["path", "content"]),
       ("dkod_submit", ["intent", "changes"]),
       ("dkod_session_status", [])] ∧
    dekode_tools.map (fun d => d.input_schema.required) =
      knownToolNames.map requiredOf :=
  ⟨rfl, rfl, rfl, rfl, rfl⟩

/-- C2: for each (alias, canonical) pair of the alias table and every
argument bag, dispatching the alias and dispatching the canonical name
yield the same outcome — in particular the same single session-operation
invocation with the same validated arguments; alias resolution is the pure
lookup `resolveAlias`, performed before the registry check. -/
theorem C2_alias_dispatch_equiv :
    ∀ a c : String, (a, c) ∈ TOOL_ALIASES →
      ∀ args : Bag, dispatch_route a args = dispatch_route c args := by
  intro a c h args
  simp only [TOOL_ALIASES, List.mem_cons, List.not_mem_nil, or_false,
    Prod.mk.injEq] at h
  rcases h with ⟨ha, hc⟩ | ⟨ha, hc⟩ <;> subst ha <;> subst hc <;> rfl

/-- Witness for C2 at the `search_codebase` alias and a valid bag. -/
theorem C2_alias_dispatch_equiv_witness :
    dispatch_route "search_codebase" [("query", JVal.str "parse_config")] =
      dispatch_route "dkod_context" [("query", JVal.str "parse_config")] :=
  C2_alias_dispatch_equiv "search_codebase" "dkod_context"
    (by simp [TOOL_ALIASES]) [("query", JVal.str "parse_config")]

/-- C3: whenever the alias-resolved name is not one of the six known
tools, dispatch fails with an unknown-tool error carrying the original
name the caller supplied, whose message mentions that name verbatim, and
no session operation is named (the result is an error, not a
`SessionCall`). -/
theorem C3_unknown_tool_error :
    ∀ (name : String) (args : Bag), resolveAlias name ∉ knownToolNames →
      dispatch_route name args = .error (.unknownTool name) ∧
      (DispatchError.unknownTool name).message = "Unknown tool: " ++ name := by
  intro name args h
  refine ⟨?_, rfl⟩
  simp only [dispatch_route, if_neg h]

/-- Witness for C3 at the spec's example `dispatch(session, "nope", {})`. -/
theorem C3_unknown_tool_error_witness :
    dispatch_route "nope" [] = .error (.unknownTool "nope") ∧
    (DispatchError.unknownTool "nope").message = "Unknown tool: nope" :=
  C3_unknown_tool_error "nope" [] (by decide)

/-- C4: for every known tool and bag lacking one of its required fields,
dispatch fails with a missing-argument error naming the tool and a
required field that is indeed absent, and no session operation is named;
in particular `dispatch(session, "dkod_context", {})` fails naming
`query`. -/
theorem C4_missing_argument_error :
    (∀ (tool : String) (args : Bag) (f : String),
        tool ∈ knownToolNames → f ∈ requiredOf tool → bagGet args f = none →
        ∃ g, g ∈ requiredOf tool ∧ bagGet args g = none ∧
          dispatch_route tool args = .error (.missingArgument tool g)) ∧
    dispatch_route "dkod_context" [] =
      .error (.missingArgument "dkod_context" "query") := by
  refine ⟨?_, rfl⟩
  intro tool args f ht hf hmiss
  have hres : resolveAlias tool = tool := by
    simp only [knownToolNames, List.mem_cons, List.not_mem_nil, or_false] at ht
    rcases ht with rfl | rfl | rfl | rfl | rfl | rfl <;> rfl
  have hsome : ((requiredOf tool).find? (fun x => (bagGet args x).isNone)).isSome := by
    rw [List.find?_isSome]
    exact ⟨f, hf, by simp [hmiss]⟩
  obtain ⟨g, hg⟩ := Option.isSome_iff_exists.mp hsome
  refine ⟨g, List.mem_of_find?_eq_some hg, ?_, ?_⟩
  · have := List.find?_some hg
    simpa [Option.isNone_iff_eq_none] using this
  · simp [dispatch_route, hres, if_pos ht, checkRequired, hg]

/-- Witness for C4 at `dkod_write_file` with a bag missing `content`. -/
theorem C4_missing_argument_error_witness :
    ∃ g, g ∈ requiredOf "dkod_write_file" ∧
      bagGet [("path", JVal.str "src/a.rs")] g = none ∧
      dispatch_route "dkod_write_file" [("path", JVal.str "src/a.rs")] =
        .error (.missingArgument "dkod_write_file" g) :=
  C4_missing_argument_error.1 "dkod_write_file" [("path", JVal.str "src/a.rs")]
    "content" (by decide) (by decide) rfl

/-- C5: over every argument bag, a `depth` string that is no
`ContextDepth` member makes dispatch fail with an invalid-enum-value error
naming the field, the received value and the allowed set
`SIGNATURES, FULL, CALL_GRAPH`; a `type` string inside a change that is no
`ChangeType` member makes dispatch fail naming `type`, the received value
and the six change types; and a numeric-looking string for `max_tokens` is
converted and accepted, reaching the `context` session operation with the
converted value (the remaining optional fields decoding to whatever values
the bag holds). -/
theorem C5_enum_error_and_numeric_coercion :
    (∀ (args : Bag) (q s : String),
        bagGet args "query" = some (.str q) →
        bagGet args "depth" = some (.str s) →
        ContextDepth.fromString? s = none →
        dispatch_route "dkod_context" args =
          .error (.invalidArgument "depth" s ["SIGNATURES", "FULL", "CALL_GRAPH"])) ∧
    (∀ (args : Bag) (i ty : String) (kvs : Bag) (rest : List JVal),
        bagGet args "intent" = some (.str i) →
        bagGet args "changes" = some (.arr (JVal.obj kvs :: rest)) →
        bagGet kvs "type" = some (.str ty) →
        ChangeType.fromString? ty = none →
        dispatch_route "dkod_submit" args =
          .error (.invalidArgument "type" ty
            ["MODIFY_FUNCTION", "ADD_FUNCTION", "DELETE_FUNCTION",
             "MODIFY_TYPE", "ADD_TYPE", "ADD_DEPENDENCY"])) ∧
    (∀ (args : Bag) (q : String) (d : ContextDepth) (b1 b2 : Bool)
        (s : String) (k : Int),
        bagGet args "query" = some (.str q) →
        getDepth args = .ok d →
        getBoolD "include_tests" args false = .ok b1 →
        getBoolD "include_dependencies" args false = .ok b2 →
        bagGet args "max_tokens" = some (.str s) →
        pyInt? s = some k →
        dispatch_route "dkod_context" args = .ok (.context q d b1 b2 k)) := by
  refine ⟨?_, ?_, ?_⟩
  · intro args q s hq hd h
    have h1 : checkRequired "dkod_context" args = none := by
      simp [checkRequired, requiredOf, List.find?, hq]
    have h2 : getStr "dkod_context" "query" args = .ok q := by
      simp [getStr, hq]
    have h3 : getDepth args =
        .error (.invalidArgument "depth" s ["SIGNATURES", "FULL", "CALL_GRAPH"]) := by
      simp [getDepth, hd, h]
    simp [dispatch_route, resolveAlias, TOOL_ALIASES, knownToolNames, List.find?,
          h1, h2, h3, buildCall]
  · intro args i ty kvs rest hi hc hty h
    have h1 : checkRequired "dkod_submit" args = none := by
      simp [checkRequired, requiredOf, List.find?, hi, hc]
    have h2 : getStr "dkod_submit" "intent" args = .ok i := by
      simp [getStr, hi]
    have h3 : getStr "dkod_submit" "type" kvs = .ok ty := by
      simp [getStr, hty]
    have h4 : decodeChange (JVal.obj kvs) =
        .error (.invalidArgument "type" ty
          ["MODIFY_FUNCTION", "ADD_FUNCTION", "DELETE_FUNCTION",
           "MODIFY_TYPE", "ADD_TYPE", "ADD_DEPENDENCY"]) := by
      simp [decodeChange, h3, h]
    have h5 : decodeChanges ((bagGet args "changes").getD .null) =
        .error (.invalidArgument "type" ty
          ["MODIFY_FUNCTION", "ADD_FUNCTION", "DELETE_FUNCTION",
           "MODIFY_TYPE", "ADD_TYPE", "ADD_DEPENDENCY"]) := by
      simp [hc, decodeChanges, decodeChangeList, h4]
    simp [dispatch_route, resolveAlias, TOOL_ALIASES, knownToolNames, List.find?,
          h1, h2, h5, buildCall]
  · intro args q d b1 b2 s k hq hd hb1 hb2 hs hk
    have h1 : checkRequired "dkod_context" args = none := by
      simp [checkRequired, requiredOf, List.find?, hq]
    have h2 : getStr "dkod_context" "query" args = .ok q := by
      simp [getStr, hq]
    have hm : getMaxTokens args = .ok k := by
      simp [getMaxTokens, hs, hk]
    simp [dispatch_route, resolveAlias, TOOL_ALIASES, knownToolNames, List.find?,
          h1, h2, hd, hb1, hb2, hm, buildCall]

/-- Witness for C5: the spec's `depth = "BOGUS"` example, a change whose
`type` is `"BOGUS_TYPE"`, and `max_tokens = "4000"`. -/
theorem C5_enum_error_and_numeric_coercion_witness :
    dispatch_route "dkod_context"
        [("query", JVal.str "x"), ("depth", JVal.str "BOGUS")] =
      .error (.invalidArgument "depth" "BOGUS"
        ["SIGNATURES", "FULL", "CALL_GRAPH"]) ∧
    dispatch_route "dkod_submit"
        [("intent", JVal.str "i"),
         ("changes", JVal.arr [JVal.obj [("type", JVal.str "BOGUS_TYPE")]])] =
      .error (.invalidArgument "type" "BOGUS_TYPE"
        ["MODIFY_FUNCTION", "ADD_FUNCTION", "DELETE_FUNCTION",
         "MODIFY_TYPE", "ADD_TYPE", "ADD_DEPENDENCY"]) ∧
    dispatch_route "dkod_context"
        [("query", JVal.str "x"), ("max_tokens", JVal.str "4000")] =
      .ok (.context "x" .FULL false false 4000) :=
  ⟨C5_enum_error_and_numeric_coercion.1
      [("query", JVal.str "x"), ("depth", JVal.str "BOGUS")] "x" "BOGUS"
      rfl rfl rfl,
   C5_enum_error_and_numeric_coercion.2.1
      [("intent", JVal.str "i"),
       ("changes", JVal.arr [JVal.obj [("type", JVal.str "BOGUS_TYPE")]])]
      "i" "BOGUS_TYPE" [("type", JVal.str "BOGUS_TYPE")] [] rfl rfl rfl rfl,
   C5_enum_error_and_numeric_coercion.2.2
      [("query", JVal.str "x"), ("max_tokens", JVal.str "4000")]
      "x" .FULL false false "4000" 4000 rfl rfl rfl rfl rfl rfl⟩

/-- The key list of a returned Python dict. -/
def objKeys : JVal → List String
  | .obj kvs => kvs.map (fun p => p.1)
  | _ => []

/-- C6: `DekodeSession.context` called with only a query builds the one
`ContextRequest` carrying the session's id, the query, and the defaults
`FULL` / `False` / `False` / `8000`, performs the single RPC on it, and
converts the response; and `ContextResult.from_proto` takes `symbols`,
`call_graph`, `dependencies` and `estimated_tokens` from that response. -/
theorem C6_context_defaults :
    (∀ (s : DekodeSessionState) (stub : ContextRequest → ContextResponse)
        (q : String),
      DekodeSession.context s stub q =
        ContextResult.from_proto
          (stub { session_id := s.session_id
                  query := q
                  depth := contextDepthToProto .FULL
                  include_tests := false
                  include_dependencies := false
                  max_tokens := 8000 })) ∧
    (∀ pb : ContextResponse,
      ContextResult.from_proto pb =
        { symbols := pb.symbols.map Symbol.from_symbol_result
          call_graph := pb.call_graph.map CallEdge.from_proto
          dependencies := pb.dependencies.map Dependency.from_proto
          estimated_tokens := pb.estimated_tokens }) :=
  ⟨fun _ _ _ => rfl, fun _ => rfl⟩

/-- C7: `Change.to_proto` copies the five mandatory fields (the type
through the `ChangeType` → proto table) and sets `old_symbol_id` exactly
when the model's `old_symbol_id` is not `None`; `DekodeSession.submit`
sends the one `SubmitRequest` holding the session id, the intent, and
precisely the serialised changes in order. -/
theorem C7_change_to_proto_and_submit :
    (∀ c : Change,
      (c.to_proto).type = changeTypeToProto c.type ∧
      (c.to_proto).symbol_name = c.symbol_name ∧
      (c.to_proto).file_path = c.file_path ∧
      (c.to_proto).new_source = c.new_source ∧
      (c.to_proto).rationale = c.rationale ∧
      (c.to_proto).old_symbol_id = c.old_symbol_id ∧
      ((c.to_proto).old_symbol_id.isSome ↔ c.old_symbol_id.isSome)) ∧
    (∀ (s : DekodeSessionState) (stub : SubmitRequest → SubmitResponse)
        (changes : List Change) (intent : String),
      DekodeSession.submit s stub changes intent =
        SubmitResult.from_proto
          (stub { session_id := s.session_id
                  intent := intent
                  changes := changes.map Change.to_proto })) := by
  constructor
  · intro c
    cases hc : c.old_symbol_id <;> simp [Change.to_proto, hc]
  · intro s stub changes intent
    rfl

/-- C8: `DekodeSession.session_status` returns the dict with exactly the
six keys `session_id`, `base_commit`, `files_modified`,
`symbols_modified`, `overlay_size_bytes`, `active_other_sessions`, in
that order, each copied from the corresponding field of the one RPC
response (the two list fields as lists of strings). -/
theorem C8_session_status_shape :
    ∀ (s : DekodeSessionState)
      (stub : SessionStatusRequest → SessionStatusResponse),
      DekodeSession.session_status s stub =
        JVal.obj
          [("session_id", .str (stub ⟨s.session_id⟩).session_id),
           ("base_commit", .str (stub ⟨s.session_id⟩).base_commit),
           ("files_modified",
              .arr ((stub ⟨s.session_id⟩).files_modified.map JVal.str)),
           ("symbols_modified",
              .arr ((stub ⟨s.session_id⟩).symbols_modified.map JVal.str)),
           ("overlay_size_bytes",
              .num ((stub ⟨s.session_id⟩).overlay_size_bytes : Int)),
           ("active_other_sessions",
              .num ((stub ⟨s.session_id⟩).active_other_sessions : Int))] ∧
      objKeys (DekodeSession.session_status s stub) =
        ["session_id", "base_commit", "files_modified", "symbols_modified",
         "overlay_size_bytes", "active_other_sessions"] :=
  fun _ _ => ⟨rfl, rfl⟩

/-- C9: `DekodeSession.file_read` decodes the response bytes with the
total replacement decoder — so no byte sequence can make it raise — and
always returns the dict with exactly the keys `content`, `hash`,
`modified_in_session`; on an ill-formed byte sequence the decoder yields
U+FFFD for each maximal invalid subpart instead of failing. -/
theorem C9_file_read_total_replace :
    (∀ (s : DekodeSessionState) (stub : FileReadRequest → FileReadResponse)
        (path : String),
      DekodeSession.file_read s stub path =
        JVal.obj
          [("content",
              .str (decode_utf8_replace (stub ⟨s.session_id, path⟩).content)),
           ("hash", .str (stub ⟨s.session_id, path⟩).hash),
           ("modified_in_session",
              .bool (stub ⟨s.session_id, path⟩).modified_in_session)] ∧
      objKeys (DekodeSession.file_read s stub path) =
        ["content", "hash", "modified_in_session"]) ∧
    decode_utf8_replace [0xff, 0x68, 0xc3, 0x28] =
      String.mk [replacementChar, 'h', replacementChar, '('] :=
  ⟨fun _ _ _ => ⟨rfl, rfl⟩, by decide⟩

/-- C10: the enum/proto tables invert each other — `_CHANGE_TYPE_FROM_PROTO`
(built in the source by inverting `_CHANGE_TYPE_TO_PROTO`'s items) maps
each change type's proto value back to that change type, and each submit
status proto constant maps to the `SubmitStatus` member whose string value
names the same status. -/
theorem C10_enum_proto_round_trip :
    (∀ t : ChangeType, changeTypeFromProto? (changeTypeToProto t) = some t) ∧
    (∀ t : ChangeType,
      (CHANGE_TYPE_TO_PROTO_items.find? (fun p => p.1 = t)).map (fun p => p.2) =
        some (changeTypeToProto t)) ∧
    submitStatusFromProto? agent_pb2.ACCEPTED = some SubmitStatus.ACCEPTED ∧
    submitStatusFromProto? agent_pb2.REJECTED = some SubmitStatus.REJECTED ∧
    submitStatusFromProto? agent_pb2.CONFLICT = some SubmitStatus.CONFLICT ∧
    SubmitStatus.ACCEPTED.val = "ACCEPTED" ∧
    SubmitStatus.REJECTED.val = "REJECTED" ∧
    SubmitStatus.CONFLICT.val = "CONFLICT" := by
  refine ⟨fun t => ?_, fun t => ?_, rfl, rfl, rfl, rfl, rfl, rfl⟩ <;>
    cases t <;> rfl

end Dekode
